import Mathlib

/-!
Shallow embedding of the reconciliation scoring engine found in
`recon/app/engine/scorer.py` (class `ReconciliationScorer` and the value
class `MatchCandidate`).

Modelling conventions:
* Python `Decimal` amounts and the float-valued scores are modelled as
  exact rationals `ℚ`; the scoring formulas are plain field arithmetic.
* A Python `datetime` is modelled by the number of seconds its wall-clock
  reading lies after an arbitrary fixed epoch (`wallSeconds`, an integer,
  a faithful linearisation of the year/month/day/hour/minute/second
  fields) together with an optional timezone offset (`tzOffset`), so that
  `replace(tzinfo=None)` keeps `wallSeconds` and drops the offset, and
  naive `datetime` subtraction is integer subtraction of `wallSeconds`.
  `timedelta.days` is floor division of the signed second difference by
  86400, exactly as in CPython.
* The external `fuzzywuzzy` similarity (an external library, not part of
  this repository) is an explicit function parameter `fuzz`, returning the
  0–100 ratio that the code divides by 100.
* Python string formatting `f"{x:.1f}"` is modelled by `fmt1` (decimal
  rounding of the exact rational), and `int(x)` by `pyInt` (truncation
  toward zero); the explanation strings are otherwise built exactly as in
  the source.
* `list.sort(key=..., reverse=True)` is a stable descending sort; since a
  stable sort for a fixed total preorder is unique as a function, it is
  modelled by the stable `List.insertionSort` with the relation
  `b.score ≤ a.score`.
* The Python slice `lst[:top_n]` (with `top_n` a possibly negative `int`)
  is modelled by `pythonTake`, including the negative-index semantics.
-/

/-- One decimal `'` quote character, used in the explanation strings. -/
def sqc : String := ⟨[Char.ofNat 39]⟩

/-- Model of the Python format `f"{x:.1f}"`: the rational rendered with one
decimal digit. -/
def fmt1 (q : ℚ) : String :=
  let m : ℤ := round (q * 10)
  (if m < 0 then "-" else "") ++ toString (m.natAbs / 10) ++ "." ++ toString (m.natAbs % 10)

/-- Model of Python `int(x)`: truncation toward zero. -/
def pyInt (q : ℚ) : ℤ :=
  if 0 ≤ q then q.floor else -((-q).floor)

/-- `chPre n h` : the list `n` is an initial segment of `h` (used to model
Python substring containment). -/
def chPre : List Char → List Char → Bool
  | [], _ => true
  | _ :: _, [] => false
  | a :: as, b :: bs => a == b && chPre as bs

/-- `chSub n h` : the list `n` occurs contiguously inside `h`; models the
Python `in` operator on strings. -/
def chSub (needle : List Char) : List Char → Bool
  | [] => needle.isEmpty
  | h :: t => chPre needle (h :: t) || chSub needle t

/-- Model of Python `needle in haystack` on strings. -/
def pyIn (needle haystack : String) : Bool :=
  chSub needle.toList haystack.toList

/-- Python truthiness of an optional string: `False` for `None` and for the
empty string. -/
def truthy : Option String → Bool
  | none => false
  | some s => !(s == "")

/-- Model of a Python `datetime`: the wall-clock reading linearised to
seconds past a fixed epoch, plus the optional timezone offset (`tzinfo`).
-/
structure PyDateTime where
  wallSeconds : ℤ
  tzOffset : Option ℤ
deriving DecidableEq

/-- `d.replace(tzinfo=None)`. -/
def stripTz (d : PyDateTime) : PyDateTime := { d with tzOffset := none }

/-- `(a - b).days` for naive datetimes: floor division of the signed
second difference by 86400, as in CPython `timedelta` normalisation. -/
def daysBetween (a b : PyDateTime) : ℤ :=
  (a.wallSeconds - b.wallSeconds).fdiv 86400

/-- The calendar-day index of a wall-clock reading (used only to state
properties about "same calendar date"; the code itself never computes it).
-/
def calendarDay (d : PyDateTime) : ℤ := d.wallSeconds.fdiv 86400

/-- The `MatchCandidate` value class of `scorer.py`. -/
structure MatchCandidate where
  invoice_id : String
  transaction_id : String
  score : ℚ
  amount_score : ℚ
  date_score : ℚ
  text_score : ℚ
  explanation : String
deriving DecidableEq

/-- The configuration held by a `ReconciliationScorer` instance
(`__init__` parameters of `scorer.py`). -/
structure ReconciliationScorer where
  amount_exact_weight : ℚ
  amount_close_weight : ℚ
  date_proximity_weight : ℚ
  text_similarity_weight : ℚ
  amount_tolerance_percent : ℚ
  date_proximity_days : ℤ
deriving DecidableEq

/-- The default configuration: `0.4, 0.2, 0.3, 0.3, 2.0, 3`. -/
def defaultScorer : ReconciliationScorer :=
  { amount_exact_weight := 0.4
    amount_close_weight := 0.2
    date_proximity_weight := 0.3
    text_similarity_weight := 0.3
    amount_tolerance_percent := 2
    date_proximity_days := 3 }

/-- The percentage difference computed inside `calculate_amount_score`:
`(diff / avg) * 100 if avg > 0 else 100`. -/
def percentDiff (a b : ℚ) : ℚ :=
  if 0 < (a + b) / 2 then (|a - b| / ((a + b) / 2)) * 100 else 100

/-- `ReconciliationScorer.calculate_amount_score`. -/
def calculate_amount_score (s : ReconciliationScorer) (invoice_amount transaction_amount : ℚ) :
    ℚ × String :=
  if invoice_amount = transaction_amount then
    (1, "Exact amount match")
  else
    let percent_diff := percentDiff invoice_amount transaction_amount
    if percent_diff ≤ s.amount_tolerance_percent then
      (1 - (percent_diff / s.amount_tolerance_percent) * (1/2),
        "Amount within " ++ fmt1 percent_diff ++ "% tolerance")
    else
      (max 0 (1 - percent_diff / 100),
        "Amount differs by " ++ fmt1 percent_diff ++ "%")

/-- `ReconciliationScorer.calculate_date_score`. -/
def calculate_date_score (s : ReconciliationScorer) (invoice_date : Option PyDateTime)
    (transaction_date : PyDateTime) : ℚ × String :=
  match invoice_date with
  | none => (1/2, "Invoice date not available")
  | some idate =>
    let idate := if idate.tzOffset.isSome then stripTz idate else idate
    let tdate := if transaction_date.tzOffset.isSome then stripTz transaction_date
                 else transaction_date
    let days_diff : ℤ := |daysBetween idate tdate|
    if days_diff = 0 then
      (1, "Same day transaction")
    else if days_diff ≤ s.date_proximity_days then
      (1 - ((days_diff : ℚ) / (s.date_proximity_days : ℚ)) * (1/2),
        "Transaction " ++ toString days_diff ++ " days from invoice date")
    else
      (max 0 (1 - (days_diff : ℚ) / 30),
        "Transaction " ++ toString days_diff ++ " days from invoice date")

/-- `ReconciliationScorer.calculate_text_score`; `fuzz` is the external
similarity ratio (0–100 valued in the library). -/
def calculate_text_score (fuzz : String → String → ℚ)
    (invoice_desc transaction_desc invoice_number vendor_name : Option String) :
    ℚ × String :=
  let invoice_texts : List String :=
    (if truthy invoice_desc then [(invoice_desc.getD "").toLower] else []) ++
    (if truthy invoice_number then [(invoice_number.getD "").toLower] else []) ++
    (if truthy vendor_name then [(vendor_name.getD "").toLower] else [])
  if !truthy transaction_desc || invoice_texts.isEmpty then
    (3/10, "Insufficient text data for comparison")
  else
    let transaction_text := (transaction_desc.getD "").toLower
    let ms : ℚ × String := invoice_texts.foldl
      (fun acc invoice_text =>
        let ratio := fuzz invoice_text transaction_text / 100
        if acc.1 < ratio then (ratio, invoice_text.take 50) else acc)
      (0, "")
    let ms := if truthy invoice_number &&
        pyIn (invoice_number.getD "").toLower transaction_text then
      (max ms.1 (9/10),
        "Invoice number " ++ sqc ++ (invoice_number.getD "") ++ sqc ++ " found in description")
    else ms
    let ms := if truthy vendor_name &&
        pyIn (vendor_name.getD "").toLower transaction_text then
      (max ms.1 (85/100),
        "Vendor name " ++ sqc ++ (vendor_name.getD "") ++ sqc ++ " found in description")
    else ms
    let explanation := "Text similarity: " ++ toString (pyInt (ms.1 * 100)) ++ "%"
    let explanation := if !(ms.2 == "") then explanation ++ " (matched: " ++ ms.2 ++ ")"
                       else explanation
    (ms.1, explanation)

/-- `ReconciliationScorer.score_match`. -/
def score_match (fuzz : String → String → ℚ) (s : ReconciliationScorer)
    (invoice_id : String) (invoice_amount : ℚ) (invoice_date : Option PyDateTime)
    (invoice_desc invoice_number vendor_name : Option String)
    (transaction_id : String) (transaction_amount : ℚ)
    (transaction_date : PyDateTime) (transaction_desc : Option String) :
    MatchCandidate :=
  let amount_res := calculate_amount_score s invoice_amount transaction_amount
  let date_res := calculate_date_score s invoice_date transaction_date
  let text_res := calculate_text_score fuzz invoice_desc transaction_desc
    invoice_number vendor_name
  let total_score :=
    amount_res.1 * s.amount_exact_weight +
    date_res.1 * s.date_proximity_weight +
    text_res.1 * s.text_similarity_weight
  let total_score := min 100 (total_score * 100)
  let explanation :=
    "Amount: " ++ amount_res.2 ++ " | " ++
    "Date: " ++ date_res.2 ++ " | " ++
    "Text: " ++ text_res.2 ++ " | " ++
    "Overall confidence: " ++ fmt1 total_score ++ "%"
  { invoice_id := invoice_id
    transaction_id := transaction_id
    score := total_score
    amount_score := amount_res.1 * 100
    date_score := date_res.1 * 100
    text_score := text_res.1 * 100
    explanation := explanation }

/-- An invoice record as consumed by `score_candidates` (a Python dict;
optional fields are the ones read with `.get`). -/
structure InvoiceRec where
  id : String
  amount : ℚ
  currency : Option String
  invoice_date : Option PyDateTime
  description : Option String
  invoice_number : Option String
  vendor_name : Option String
deriving DecidableEq

/-- A bank-transaction record as consumed by `score_candidates`. -/
structure TransactionRec where
  id : String
  amount : ℚ
  currency : Option String
  posted_at : PyDateTime
  description : Option String
deriving DecidableEq

/-- Python `lst[:n]` for an integer `n`, including the negative-index
semantics (`lst[:-k]` drops the last `k` elements). -/
def pythonTake {α : Type} (n : ℤ) (l : List α) : List α :=
  if 0 ≤ n then l.take n.toNat
  else l.take (l.length - (-n).toNat)

/-- `lst.sort(key=lambda x: x.score, reverse=True)`: the stable descending
sort by score (stable sorts for a fixed total preorder agree, so the
stable `insertionSort` is the unique model of Timsort here). -/
def pySortDesc (l : List MatchCandidate) : List MatchCandidate :=
  l.insertionSort (fun a b => b.score ≤ a.score)

/-- The inner loop of `score_candidates` for one invoice: every
transaction is scored unless the currencies differ, in transaction order.
-/
def invoiceCandidates (fuzz : String → String → ℚ) (s : ReconciliationScorer)
    (invoice : InvoiceRec) (transactions : List TransactionRec) : List MatchCandidate :=
  (transactions.filter (fun t => invoice.currency == t.currency)).map
    (fun t => score_match fuzz s invoice.id invoice.amount invoice.invoice_date
      invoice.description invoice.invoice_number invoice.vendor_name
      t.id t.amount t.posted_at t.description)

/-- `ReconciliationScorer.score_candidates`. -/
def score_candidates (fuzz : String → String → ℚ) (s : ReconciliationScorer)
    (invoices : List InvoiceRec) (transactions : List TransactionRec)
    (top_n : ℤ) : List MatchCandidate :=
  pySortDesc
    ((invoices.map
      (fun invoice => pythonTake top_n (pySortDesc (invoiceCandidates fuzz s invoice transactions)))).flatten)

/-- `o` with an empty string normalised to `none` (used to state that the
code tests optional text fields for truthiness, not presence). -/
def emptyToNone (o : Option String) : Option String :=
  if o = some "" then none else o

/-- A concrete invoice record used in witnesses and counterexamples. -/
def invX : InvoiceRec :=
  { id := "inv-1", amount := 100, currency := some "USD", invoice_date := none,
    description := none, invoice_number := none, vendor_name := none }

/-- A concrete transaction record used in witnesses and counterexamples. -/
def txA : TransactionRec :=
  { id := "txn-1", amount := 100, currency := some "USD",
    posted_at := { wallSeconds := 0, tzOffset := none }, description := none }

/-- A second concrete transaction record. -/
def txB : TransactionRec :=
  { id := "txn-2", amount := 50, currency := some "USD",
    posted_at := { wallSeconds := 0, tzOffset := none }, description := none }

/-- A concrete similarity function standing in for the external library in
witnesses and counterexamples (the theorems quantify over all of them). -/
def fuzz0 : String → String → ℚ := fun _ _ => 0

/-- The candidate produced for the pair `(invX, txA)`. -/
def candX : MatchCandidate :=
  score_match fuzz0 defaultScorer invX.id invX.amount invX.invoice_date
    invX.description invX.invoice_number invX.vendor_name
    txA.id txA.amount txA.posted_at txA.description

/-- A concrete invoice record with no currency field. -/
def invN : InvoiceRec :=
  { id := "inv-2", amount := 100, currency := none, invoice_date := none,
    description := none, invoice_number := none, vendor_name := none }

/-- A concrete transaction record with no currency field. -/
def txN : TransactionRec :=
  { id := "txn-3", amount := 100, currency := none,
    posted_at := { wallSeconds := 0, tzOffset := none }, description := none }

theorem truthy_emptyToNone (o : Option String) : truthy (emptyToNone o) = truthy o := by
  rcases o with _ | s
  · simp [emptyToNone, truthy]
  · by_cases h : s = "" <;> simp [emptyToNone, truthy, h]

theorem getD_emptyToNone (o : Option String) : (emptyToNone o).getD "" = o.getD "" := by
  rcases o with _ | s
  · simp [emptyToNone]
  · by_cases h : s = "" <;> simp [emptyToNone, h]

theorem stripSel_wallSeconds (d : PyDateTime) :
    (if d.tzOffset.isSome then stripTz d else d).wallSeconds = d.wallSeconds := by
  by_cases h : d.tzOffset.isSome <;> simp [h, stripTz]

theorem mem_pySortDesc {a : MatchCandidate} {l : List MatchCandidate} :
    a ∈ pySortDesc l ↔ a ∈ l :=
  (List.perm_insertionSort _ l).mem_iff

theorem pythonTake_subset {α : Type} (n : ℤ) (l : List α) : pythonTake n l ⊆ l := by
  unfold pythonTake
  split <;> exact List.take_subset _ _

/-- C1: the overall score of the candidate returned by `score_match` is
`min(100, 100 × (amount_score·W_amount + date_score·W_date + text_score·W_text))`
where the sub-scores are the component scorers' values on the same inputs;
`score_match` is a pure function of its arguments and the configuration. -/
theorem score_match_overall_formula (fuzz : String → String → ℚ) (s : ReconciliationScorer)
    (iid : String) (ia : ℚ) (idate : Option PyDateTime)
    (idesc inum vn : Option String) (tid : String) (ta : ℚ)
    (tdate : PyDateTime) (tdesc : Option String) :
    (score_match fuzz s iid ia idate idesc inum vn tid ta tdate tdesc).score =
      min 100 (100 *
        ((calculate_amount_score s ia ta).1 * s.amount_exact_weight +
         (calculate_date_score s idate tdate).1 * s.date_proximity_weight +
         (calculate_text_score fuzz idesc tdesc inum vn).1 * s.text_similarity_weight)) := by
  simp only [score_match]
  congr 1
  ring

/-- C7: `score_match` is deterministic — two calls on field-wise identical
inputs with the same configuration (and the same external similarity
function) agree on every field of the returned candidate. -/
theorem score_match_deterministic (fuzz : String → String → ℚ) (s : ReconciliationScorer)
    (iid iid' : String) (ia ia' : ℚ) (idate idate' : Option PyDateTime)
    (idesc idesc' inum inum' vn vn' : Option String) (tid tid' : String) (ta ta' : ℚ)
    (tdate tdate' : PyDateTime) (tdesc tdesc' : Option String)
    (h₁ : iid = iid') (h₂ : ia = ia') (h₃ : idate = idate') (h₄ : idesc = idesc')
    (h₅ : inum = inum') (h₆ : vn = vn') (h₇ : tid = tid') (h₈ : ta = ta')
    (h₉ : tdate = tdate') (h₁₀ : tdesc = tdesc') :
    (score_match fuzz s iid ia idate idesc inum vn tid ta tdate tdesc).score =
      (score_match fuzz s iid' ia' idate' idesc' inum' vn' tid' ta' tdate' tdesc').score ∧
    (score_match fuzz s iid ia idate idesc inum vn tid ta tdate tdesc).amount_score =
      (score_match fuzz s iid' ia' idate' idesc' inum' vn' tid' ta' tdate' tdesc').amount_score ∧
    (score_match fuzz s iid ia idate idesc inum vn tid ta tdate tdesc).date_score =
      (score_match fuzz s iid' ia' idate' idesc' inum' vn' tid' ta' tdate' tdesc').date_score ∧
    (score_match fuzz s iid ia idate idesc inum vn tid ta tdate tdesc).text_score =
      (score_match fuzz s iid' ia' idate' idesc' inum' vn' tid' ta' tdate' tdesc').text_score ∧
    (score_match fuzz s iid ia idate idesc inum vn tid ta tdate tdesc).explanation =
      (score_match fuzz s iid' ia' idate' idesc' inum' vn' tid' ta' tdate' tdesc').explanation ∧
    (score_match fuzz s iid ia idate idesc inum vn tid ta tdate tdesc).invoice_id =
      (score_match fuzz s iid' ia' idate' idesc' inum' vn' tid' ta' tdate' tdesc').invoice_id ∧
    (score_match fuzz s iid ia idate idesc inum vn tid ta tdate tdesc).transaction_id =
      (score_match fuzz s iid' ia' idate' idesc' inum' vn' tid' ta' tdate' tdesc').transaction_id := by
  subst h₁ h₂ h₃ h₄ h₅ h₆ h₇ h₈ h₉ h₁₀
  exact ⟨rfl, rfl, rfl, rfl, rfl, rfl, rfl⟩

/-- Witness for C7 at a concrete input. -/
theorem score_match_deterministic_witness :
    (score_match fuzz0 defaultScorer "i" 100 none none none none "t" 100
        { wallSeconds := 0, tzOffset := none } none).score =
      (score_match fuzz0 defaultScorer "i" 100 none none none none "t" 100
        { wallSeconds := 0, tzOffset := none } none).score :=
  (score_match_deterministic fuzz0 defaultScorer "i" "i" 100 100 none none none none
    none none none none "t" "t" 100 100 { wallSeconds := 0, tzOffset := none }
    { wallSeconds := 0, tzOffset := none } none none
    rfl rfl rfl rfl rfl rfl rfl rfl rfl rfl).1

/-- C8: the configuration field `amount_close_weight` never influences
`score_match`: two configurations differing only in that field give
identical candidates. -/
theorem amount_close_weight_unused (fuzz : String → String → ℚ)
    (w₁ w₂ w₂' w₃ w₄ tol : ℚ) (days : ℤ)
    (iid : String) (ia : ℚ) (idate : Option PyDateTime)
    (idesc inum vn : Option String) (tid : String) (ta : ℚ)
    (tdate : PyDateTime) (tdesc : Option String) :
    score_match fuzz
      { amount_exact_weight := w₁, amount_close_weight := w₂,
        date_proximity_weight := w₃, text_similarity_weight := w₄,
        amount_tolerance_percent := tol, date_proximity_days := days }
      iid ia idate idesc inum vn tid ta tdate tdesc =
    score_match fuzz
      { amount_exact_weight := w₁, amount_close_weight := w₂',
        date_proximity_weight := w₃, text_similarity_weight := w₄,
        amount_tolerance_percent := tol, date_proximity_days := days }
      iid ia idate idesc inum vn tid ta tdate tdesc := rfl

/-- Length is preserved by the stable descending sort. -/
theorem length_pySortDesc (l : List MatchCandidate) : (pySortDesc l).length = l.length :=
  (List.perm_insertionSort _ l).length_eq

/-- The score component of `calculate_date_score` on a present invoice date,
expressed through the day difference of the two inputs (the timezone strip
does not change the wall-clock reading). -/
theorem calculate_date_score_fst (s : ReconciliationScorer) (i t : PyDateTime) :
    (calculate_date_score s (some i) t).1 =
      (if |daysBetween i t| = 0 then 1
       else if |daysBetween i t| ≤ s.date_proximity_days then
         1 - (((|daysBetween i t| : ℤ) : ℚ)/((s.date_proximity_days : ℤ) : ℚ)) * (1/2)
       else max 0 (1 - ((|daysBetween i t| : ℤ) : ℚ)/30)) := by
  simp only [calculate_date_score, daysBetween, stripSel_wallSeconds]
  split_ifs <;> rfl

/-- C2 counterexample: with the default tolerance (2%), at fixed average 100
the pair (101, 99) has absolute difference 2 and scores 0.5, while the pair
(203/2, 197/2) has the larger absolute difference 3 and scores 0.97 — the
amount score strictly increases with the difference. -/
theorem amount_score_not_monotonic_counterexample :
    (101 : ℚ) + 99 = (203 : ℚ)/2 + 197/2 ∧
    |(101 : ℚ) - 99| ≤ |(203 : ℚ)/2 - 197/2| ∧
    (calculate_amount_score defaultScorer 101 99).1 <
      (calculate_amount_score defaultScorer (203/2) (197/2)).1 := by
  refine ⟨by norm_num, by norm_num, ?_⟩
  have e₁ : (calculate_amount_score defaultScorer 101 99).1 = 1/2 := by
    simp only [calculate_amount_score]
    rw [if_neg (by norm_num : ¬ ((101:ℚ) = 99)),
      show percentDiff 101 99 = 2 from by unfold percentDiff; norm_num]
    rw [if_pos (by norm_num [defaultScorer])]
    norm_num [defaultScorer]
  have e₂ : (calculate_amount_score defaultScorer (203/2) (197/2)).1 = 97/100 := by
    simp only [calculate_amount_score]
    rw [if_neg (by norm_num : ¬ ((203:ℚ)/2 = 197/2)),
      show percentDiff (203/2) (197/2) = 3 from by unfold percentDiff; norm_num]
    rw [if_neg (by norm_num [defaultScorer])]
    norm_num
  rw [e₁, e₂]
  norm_num

/-- C3 counterexample: with the default window (3 days), a 4-day difference
is strictly beyond the window yet scores 13/15 ≈ 0.867, not below 0.5. -/
theorem date_score_beyond_window_counterexample :
    defaultScorer.date_proximity_days <
      |daysBetween { wallSeconds := 4*86400, tzOffset := none }
        { wallSeconds := 0, tzOffset := none }| ∧
    ¬ ((calculate_date_score defaultScorer
        (some { wallSeconds := 4*86400, tzOffset := none })
        { wallSeconds := 0, tzOffset := none }).1 < 1/2) := by
  constructor
  · unfold defaultScorer daysBetween
    decide
  · have e : (calculate_date_score defaultScorer
        (some { wallSeconds := 4*86400, tzOffset := none })
        { wallSeconds := 0, tzOffset := none }).1 = 13/15 := by
      rw [calculate_date_score_fst]
      rw [show |daysBetween { wallSeconds := 4*86400, tzOffset := none }
        { wallSeconds := 0, tzOffset := none }| = 4 from by unfold daysBetween; decide]
      norm_num [defaultScorer]
    rw [e]
    norm_num

/-- C5 counterexample: two timestamps on the same calendar date (00:00 and
12:00) give day difference 1, not 0, because `.days` floor-divides the
signed full-timestamp difference; the score is not 1.0 and the computed
day difference is not symmetric in the argument order. -/
theorem date_days_not_calendar_counterexample :
    calendarDay { wallSeconds := 0, tzOffset := none } =
      calendarDay { wallSeconds := 43200, tzOffset := none } ∧
    (calculate_date_score defaultScorer (some { wallSeconds := 0, tzOffset := none })
      { wallSeconds := 43200, tzOffset := none }).1 ≠ 1 ∧
    |daysBetween { wallSeconds := 0, tzOffset := none }
      { wallSeconds := 43200, tzOffset := none }| ≠
      |daysBetween { wallSeconds := 43200, tzOffset := none }
        { wallSeconds := 0, tzOffset := none }| := by
  refine ⟨by unfold calendarDay; decide, ?_, by unfold daysBetween; decide⟩
  have e : (calculate_date_score defaultScorer (some { wallSeconds := 0, tzOffset := none })
      { wallSeconds := 43200, tzOffset := none }).1 = 5/6 := by
    rw [calculate_date_score_fst]
    rw [show |daysBetween { wallSeconds := 0, tzOffset := none }
      { wallSeconds := 43200, tzOffset := none }| = 1 from by unfold daysBetween; decide]
    norm_num [defaultScorer]
  rw [e]
  norm_num

/-- C4 counterexample: `top_n = -1` does not retain zero candidates — the
Python slice `lst[:-1]` keeps all but the last element, so one invoice with
two admissible transactions yields one retained candidate. -/
theorem top_n_negative_counterexample :
    (-1 : ℤ) ≤ 0 ∧
    (score_candidates fuzz0 defaultScorer [invX] [txA, txB] (-1)).length = 1 := by
  refine ⟨by norm_num, ?_⟩
  have h₂ : (invoiceCandidates fuzz0 defaultScorer invX [txA, txB]).length = 2 := by
    simp [invoiceCandidates, invX, txA, txB]
  simp only [score_candidates, List.map_cons, List.map_nil, List.flatten_cons,
    List.flatten_nil, List.append_nil, length_pySortDesc]
  unfold pythonTake
  rw [if_neg (by norm_num : ¬ ((0:ℤ) ≤ -1))]
  simp [List.length_take, length_pySortDesc, h₂]

theorem percentDiff_nonneg (a b : ℚ) : 0 ≤ percentDiff a b := by
  unfold percentDiff
  split
  · rename_i h
    have h1 : 0 ≤ |a - b| / ((a + b) / 2) := div_nonneg (abs_nonneg _) (le_of_lt h)
    nlinarith
  · norm_num

theorem percentDiff_mono (a₁ b₁ a₂ b₂ : ℚ) (havg : a₁ + b₁ = a₂ + b₂)
    (hpos : 0 < (a₁ + b₁) / 2) (hd : |a₁ - b₁| ≤ |a₂ - b₂|) :
    percentDiff a₁ b₁ ≤ percentDiff a₂ b₂ := by
  unfold percentDiff
  rw [if_pos hpos, if_pos (havg ▸ hpos), ← havg]
  have h1 : |a₁ - b₁| / ((a₁ + b₁) / 2) ≤ |a₂ - b₂| / ((a₁ + b₁) / 2) :=
    (div_le_div_right hpos).mpr hd
  nlinarith

theorem calculate_amount_score_fst_eq (s : ReconciliationScorer) (a b : ℚ) (h : a = b) :
    (calculate_amount_score s a b).1 = 1 := by
  simp [calculate_amount_score, h]

theorem calculate_amount_score_fst_within (s : ReconciliationScorer) (a b : ℚ)
    (hne : a ≠ b) (hin : percentDiff a b ≤ s.amount_tolerance_percent) :
    (calculate_amount_score s a b).1 =
      1 - (percentDiff a b / s.amount_tolerance_percent) * (1/2) := by
  simp only [calculate_amount_score]
  rw [if_neg hne, if_pos hin]

theorem calculate_amount_score_fst_beyond (s : ReconciliationScorer) (a b : ℚ)
    (hne : a ≠ b) (hout : ¬ percentDiff a b ≤ s.amount_tolerance_percent) :
    (calculate_amount_score s a b).1 = max 0 (1 - percentDiff a b / 100) := by
  simp only [calculate_amount_score]
  rw [if_neg hne, if_neg hout]

/-- C2 amended: holding the average fixed (and positive), the amount score
is non-increasing in the absolute difference as long as the tolerance
boundary is not crossed: if the larger-difference pair is still within
tolerance, or the smaller-difference pair is already beyond it, the score
of the smaller difference is at least that of the larger one. (Crossing
the boundary can make the score jump up, see the counterexample.) -/
theorem amount_score_mono_same_average (s : ReconciliationScorer)
    (a₁ b₁ a₂ b₂ : ℚ)
    (htol : 0 < s.amount_tolerance_percent)
    (havg : a₁ + b₁ = a₂ + b₂)
    (hpos : 0 < (a₁ + b₁) / 2)
    (hd : |a₁ - b₁| ≤ |a₂ - b₂|)
    (hside : percentDiff a₂ b₂ ≤ s.amount_tolerance_percent ∨
             s.amount_tolerance_percent < percentDiff a₁ b₁) :
    (calculate_amount_score s a₂ b₂).1 ≤ (calculate_amount_score s a₁ b₁).1 := by
  by_cases h₂ : a₂ = b₂
  · have hzero : |a₂ - b₂| = 0 := by rw [h₂]; simp
    have h₁ : a₁ = b₁ := by
      have hle : |a₁ - b₁| ≤ 0 := hzero ▸ hd
      have hge : 0 ≤ |a₁ - b₁| := abs_nonneg _
      exact sub_eq_zero.mp (abs_eq_zero.mp (le_antisymm hle hge))
    rw [calculate_amount_score_fst_eq s _ _ h₁, calculate_amount_score_fst_eq s _ _ h₂]
  · have hpd₂nn : 0 ≤ percentDiff a₂ b₂ := percentDiff_nonneg _ _
    by_cases h₁ : a₁ = b₁
    · rw [calculate_amount_score_fst_eq s _ _ h₁]
      by_cases hin₂ : percentDiff a₂ b₂ ≤ s.amount_tolerance_percent
      · rw [calculate_amount_score_fst_within s _ _ h₂ hin₂]
        have hdivnn : 0 ≤ percentDiff a₂ b₂ / s.amount_tolerance_percent :=
          div_nonneg hpd₂nn (le_of_lt htol)
        linarith
      · rw [calculate_amount_score_fst_beyond s _ _ h₂ hin₂]
        apply max_le (by norm_num)
        have hdivnn : 0 ≤ percentDiff a₂ b₂ / 100 := by positivity
        linarith
    · have hmono : percentDiff a₁ b₁ ≤ percentDiff a₂ b₂ :=
        percentDiff_mono _ _ _ _ havg hpos hd
      have hpd₁nn : 0 ≤ percentDiff a₁ b₁ := percentDiff_nonneg _ _
      rcases hside with hin₂ | hout₁
      · have hin₁ : percentDiff a₁ b₁ ≤ s.amount_tolerance_percent := le_trans hmono hin₂
        rw [calculate_amount_score_fst_within s _ _ h₁ hin₁,
            calculate_amount_score_fst_within s _ _ h₂ hin₂]
        have hdd : percentDiff a₁ b₁ / s.amount_tolerance_percent ≤
            percentDiff a₂ b₂ / s.amount_tolerance_percent :=
          (div_le_div_right htol).mpr hmono
        linarith
      · have hout₁' : ¬ percentDiff a₁ b₁ ≤ s.amount_tolerance_percent := not_le.mpr hout₁
        have hout₂ : ¬ percentDiff a₂ b₂ ≤ s.amount_tolerance_percent :=
          not_le.mpr (lt_of_lt_of_le hout₁ hmono)
        rw [calculate_amount_score_fst_beyond s _ _ h₁ hout₁',
            calculate_amount_score_fst_beyond s _ _ h₂ hout₂]
        exact max_le_max (le_refl _) (by linarith)

/-- Witness for the amended C2 at a concrete input: differences 1 and 2 at
average 100, both within the default 2% tolerance. -/
theorem amount_score_mono_same_average_witness :
    (calculate_amount_score defaultScorer 101 99).1 ≤
      (calculate_amount_score defaultScorer (201/2) (199/2)).1 :=
  amount_score_mono_same_average defaultScorer (201/2) (199/2) 101 99
    (by norm_num [defaultScorer]) (by norm_num) (by norm_num) (by norm_num)
    (Or.inl (by
      rw [show percentDiff 101 99 = 2 from by unfold percentDiff; norm_num]
      norm_num [defaultScorer]))

/-- C3 amended: a zero day difference scores exactly 1.0; strictly beyond
the configured window the score is `max 0 (1 − days/30)`, which falls
below the 0.5 in-window floor exactly when the difference exceeds 15 days
(half the fixed 30-day horizon) and reaches 0 at 30 days and beyond. -/
theorem date_score_zero_and_beyond_window (s : ReconciliationScorer) (i t : PyDateTime) :
    (|daysBetween i t| = 0 → (calculate_date_score s (some i) t).1 = 1) ∧
    (s.date_proximity_days < |daysBetween i t| →
      (calculate_date_score s (some i) t).1 =
        max 0 (1 - ((|daysBetween i t| : ℤ) : ℚ) / 30) ∧
      ((calculate_date_score s (some i) t).1 < 1/2 ↔ 15 < |daysBetween i t|) ∧
      (30 ≤ |daysBetween i t| → (calculate_date_score s (some i) t).1 = 0)) := by
  rw [calculate_date_score_fst]
  constructor
  · intro h
    rw [if_pos h]
  · intro hbey
    by_cases h0 : |daysBetween i t| = 0
    · rw [if_pos h0, h0]
      refine ⟨by norm_num, by norm_num, fun h30 => absurd h30 (by norm_num)⟩
    · rw [if_neg h0, if_neg (not_le.mpr hbey)]
      refine ⟨rfl, ?_, ?_⟩
      · constructor
        · intro h
          have h1 : (1 : ℚ) - ((|daysBetween i t| : ℤ) : ℚ)/30 < 1/2 :=
            lt_of_le_of_lt (le_max_right _ _) h
          have h2 : (15:ℚ) < ((|daysBetween i t| : ℤ) : ℚ) := by linarith
          exact_mod_cast h2
        · intro h
          have h2 : (15:ℚ) < ((|daysBetween i t| : ℤ) : ℚ) := by exact_mod_cast h
          exact max_lt (by norm_num) (by linarith)
      · intro h30
        have h2 : (30:ℚ) ≤ ((|daysBetween i t| : ℤ) : ℚ) := by exact_mod_cast h30
        apply max_eq_left
        linarith

/-- Witness for the amended C3: same instant scores 1.0, and a 16-day
difference (beyond both the window and the 15-day half-horizon) scores
below 0.5. -/
theorem date_score_zero_and_beyond_window_witness :
    (calculate_date_score defaultScorer (some { wallSeconds := 0, tzOffset := none })
        { wallSeconds := 0, tzOffset := none }).1 = 1 ∧
    (calculate_date_score defaultScorer (some { wallSeconds := 16*86400, tzOffset := none })
        { wallSeconds := 0, tzOffset := none }).1 < 1/2 := by
  constructor
  · exact (date_score_zero_and_beyond_window defaultScorer _ _).1
      (by unfold daysBetween; decide)
  · exact ((date_score_zero_and_beyond_window defaultScorer _ _).2
      (by unfold defaultScorer daysBetween; decide)).2.1.mpr
      (by unfold daysBetween; decide)

/-- `calculate_date_score` depends only on the wall-clock seconds of its
two timestamps: both inputs may be replaced by their timezone-free
normalisations. -/
theorem calculate_date_score_some (s : ReconciliationScorer) (i t : PyDateTime) :
    calculate_date_score s (some i) t =
      calculate_date_score s (some { wallSeconds := i.wallSeconds, tzOffset := none })
        { wallSeconds := t.wallSeconds, tzOffset := none } := by
  simp only [calculate_date_score, daysBetween]
  rcases hi : i.tzOffset with _ | z <;> rcases ht : t.tzOffset with _ | w <;>
    simp [stripTz, hi, ht]

/-- C5 amended: the day difference is computed from the timezone-stripped
wall-clock timestamps (offsets never influence the result), as the
absolute value of the floor of the signed difference in whole days;
identical wall-clock instants give score 1.0. (It is not computed from
calendar-date components and is not symmetric — see the counterexample.)
-/
theorem date_score_wallclock_invariant (s : ReconciliationScorer) (i t : PyDateTime)
    (o₁ o₂ : Option ℤ) :
    calculate_date_score s (some { i with tzOffset := o₁ }) { t with tzOffset := o₂ } =
      calculate_date_score s (some i) t ∧
    (i.wallSeconds = t.wallSeconds → (calculate_date_score s (some i) t).1 = 1) := by
  constructor
  · rw [calculate_date_score_some s { i with tzOffset := o₁ } { t with tzOffset := o₂ },
      calculate_date_score_some s i t]
  · intro h
    rw [calculate_date_score_fst]
    have hz : daysBetween i t = 0 := by
      unfold daysBetween
      rw [h, sub_self]
      rfl
    rw [hz]
    simp

/-- Witness for the amended C5: offsets +2h and −5h are ignored, and equal
wall-clock instants score 1.0. -/
theorem date_score_wallclock_invariant_witness :
    calculate_date_score defaultScorer (some { wallSeconds := 100, tzOffset := some 120 })
        { wallSeconds := 100, tzOffset := some (-300) } =
      calculate_date_score defaultScorer (some { wallSeconds := 100, tzOffset := none })
        { wallSeconds := 100, tzOffset := none } ∧
    (calculate_date_score defaultScorer (some { wallSeconds := 100, tzOffset := none })
        { wallSeconds := 100, tzOffset := none }).1 = 1 :=
  ⟨(date_score_wallclock_invariant defaultScorer
      { wallSeconds := 100, tzOffset := none } { wallSeconds := 100, tzOffset := none }
      (some 120) (some (-300))).1,
   (date_score_wallclock_invariant defaultScorer
      { wallSeconds := 100, tzOffset := none } { wallSeconds := 100, tzOffset := none }
      (some 120) (some (-300))).2 rfl⟩

/-- C4 amended: with `top_n = 0` the batch output is empty (no error), and
for every `top_n ≥ 0` each invoice retains at most `top_n` candidates.
(For negative `top_n` the Python slice keeps all but the last `|top_n|`
candidates — see the counterexample.) -/
theorem score_candidates_top_n_bound (fuzz : String → String → ℚ)
    (s : ReconciliationScorer) (invoices : List InvoiceRec)
    (transactions : List TransactionRec) (invoice : InvoiceRec)
    (n : ℤ) (hn : 0 ≤ n) :
    score_candidates fuzz s invoices transactions 0 = [] ∧
    (pythonTake n (pySortDesc (invoiceCandidates fuzz s invoice transactions))).length ≤
      n.toNat := by
  constructor
  · unfold score_candidates
    have hz : ∀ l : List MatchCandidate, pythonTake 0 l = [] := by
      intro l
      unfold pythonTake
      simp
    have hmap : (invoices.map fun inv =>
        pythonTake 0 (pySortDesc (invoiceCandidates fuzz s inv transactions))) =
        invoices.map (fun _ => []) := by
      simp [hz]
    rw [hmap]
    have hflat : (invoices.map fun _ => ([] : List MatchCandidate)).flatten = [] := by
      induction invoices with
      | nil => rfl
      | cons a l ih => simp [ih]
    rw [hflat]
    rfl
  · unfold pythonTake
    rw [if_pos hn, List.length_take]
    exact min_le_left _ _

/-- Witness for the amended C4 at a concrete input. -/
theorem score_candidates_top_n_bound_witness :
    score_candidates fuzz0 defaultScorer [invX] [txA] 0 = [] ∧
    (pythonTake 2 (pySortDesc (invoiceCandidates fuzz0 defaultScorer invX [txA]))).length ≤
      (2 : ℤ).toNat :=
  score_candidates_top_n_bound fuzz0 defaultScorer [invX] [txA] invX 2 (by norm_num)

/-- C6: every candidate in the output of `score_candidates` comes from an
invoice/transaction pair with equal currency fields — a pair whose
currencies differ is never scored and never appears. -/
theorem score_candidates_currency_admissible (fuzz : String → String → ℚ)
    (s : ReconciliationScorer) (invoices : List InvoiceRec)
    (transactions : List TransactionRec) (top_n : ℤ) (c : MatchCandidate)
    (hc : c ∈ score_candidates fuzz s invoices transactions top_n) :
    ∃ invoice ∈ invoices, ∃ t ∈ transactions,
      invoice.currency = t.currency ∧
      c = score_match fuzz s invoice.id invoice.amount invoice.invoice_date
        invoice.description invoice.invoice_number invoice.vendor_name
        t.id t.amount t.posted_at t.description := by
  unfold score_candidates at hc
  rw [mem_pySortDesc, List.mem_flatten] at hc
  obtain ⟨l, hl, hcl⟩ := hc
  rw [List.mem_map] at hl
  obtain ⟨invoice, hinv, rfl⟩ := hl
  have hcl' : c ∈ pySortDesc (invoiceCandidates fuzz s invoice transactions) :=
    pythonTake_subset _ _ hcl
  rw [mem_pySortDesc] at hcl'
  unfold invoiceCandidates at hcl'
  rw [List.mem_map] at hcl'
  obtain ⟨t, ht, rfl⟩ := hcl'
  rw [List.mem_filter] at ht
  exact ⟨invoice, hinv, t, ht.1, eq_of_beq ht.2, rfl⟩

/-- Witness for C6: the single admissible pair of a one-invoice,
one-transaction batch is traced back to its inputs. -/
theorem score_candidates_currency_admissible_witness :
    ∃ invoice ∈ [invX], ∃ t ∈ [txA],
      invoice.currency = t.currency ∧
      candX = score_match fuzz0 defaultScorer invoice.id invoice.amount invoice.invoice_date
        invoice.description invoice.invoice_number invoice.vendor_name
        t.id t.amount t.posted_at t.description :=
  score_candidates_currency_admissible fuzz0 defaultScorer [invX] [txA] 5 candX
    (by exact List.mem_cons_self _ _)

/-- C9: a pair in which both the invoice and the transaction lack a
currency field compares equal (`None == None`) and is scored — it enters
the per-invoice candidate list rather than being skipped. -/
theorem missing_currency_pair_scored (fuzz : String → String → ℚ)
    (s : ReconciliationScorer) (invoice : InvoiceRec) (t : TransactionRec)
    (transactions : List TransactionRec)
    (hi : invoice.currency = none) (ht : t.currency = none) (hmem : t ∈ transactions) :
    score_match fuzz s invoice.id invoice.amount invoice.invoice_date
      invoice.description invoice.invoice_number invoice.vendor_name
      t.id t.amount t.posted_at t.description ∈
      invoiceCandidates fuzz s invoice transactions := by
  unfold invoiceCandidates
  apply List.mem_map_of_mem
  rw [List.mem_filter]
  refine ⟨hmem, ?_⟩
  rw [hi, ht]
  rfl

/-- Witness for C9 at a concrete currency-less pair. -/
theorem missing_currency_pair_scored_witness :
    score_match fuzz0 defaultScorer invN.id invN.amount invN.invoice_date
      invN.description invN.invoice_number invN.vendor_name
      txN.id txN.amount txN.posted_at txN.description ∈
      invoiceCandidates fuzz0 defaultScorer invN [txN] :=
  missing_currency_pair_scored fuzz0 defaultScorer invN txN [txN] rfl rfl
    (List.mem_cons_self _ _)

/-- C10: optional text fields are tested for truthiness, not presence — if
the transaction description is `None`/empty, or all three invoice-side
fields are `None`/empty, the text score is exactly the 0.3
insufficient-data prior; and replacing any empty-string field by `None`
never changes the result (an empty field neither enters the comparison
set nor triggers a substring override). -/
theorem text_score_empty_as_absent (fuzz : String → String → ℚ)
    (invoice_desc transaction_desc invoice_number vendor_name : Option String) :
    ((truthy transaction_desc = false ∨
      (truthy invoice_desc = false ∧ truthy invoice_number = false ∧
        truthy vendor_name = false)) →
      calculate_text_score fuzz invoice_desc transaction_desc invoice_number vendor_name =
        (3/10, "Insufficient text data for comparison")) ∧
    calculate_text_score fuzz (emptyToNone invoice_desc) transaction_desc
        (emptyToNone invoice_number) (emptyToNone vendor_name) =
      calculate_text_score fuzz invoice_desc transaction_desc invoice_number vendor_name := by
  constructor
  · intro h
    rcases h with h | ⟨h₁, h₂, h₃⟩
    · simp [calculate_text_score, h]
    · simp [calculate_text_score, h₁, h₂, h₃]
  · simp only [calculate_text_score, truthy_emptyToNone, getD_emptyToNone]

/-- Witness for C10: empty-string invoice fields yield the 0.3 prior. -/
theorem text_score_empty_as_absent_witness :
    calculate_text_score fuzz0 (some "") (some "pay") (some "") none =
      (3/10, "Insufficient text data for comparison") :=
  (text_score_empty_as_absent fuzz0 (some "") (some "pay") (some "") none).1
    (Or.inr ⟨rfl, rfl, rfl⟩)
